import Mathlib

/-!
Shallow embedding of conjure's dispatcher and connection registry.

The dispatcher (`System` and its `handle_*` methods, the event loop of
`System::start`) is translated from `src/system.rs`.  The connection
registry (`Pool`) is used by that file but its own source is not in the
repository snapshot, so its operations are modelled from the spec's
Registry contract (each such definition carries a doc comment starting
with `Modelled from the spec:`).

Side effects are made explicit: sink output is a list of `SinkWrite`
values and outbound traffic a list of `Transmission` values, both
returned by each handler.
-/

/-- A file-matching rule (embedding of `regex::Regex`): the pattern's
source text (used for display) and its matching predicate. -/
structure Rule where
  source : String
  test : String → Bool

/-- A socket address (embedding of `std::net::SocketAddr`).  The
`reachable` flag models the environment: whether establishing an
outbound connection to this address succeeds. -/
structure Addr where
  host : String
  port : Nat
  reachable : Bool

/-- Display form of an address, `host:port`. -/
def Addr.display (a : Addr) : String := a.host ++ ":" ++ toString a.port

/-- Modelled from the spec: one live connection owned by the Registry —
key, address and match rule.  The `usable` flag models the environment:
whether the connection's socket is still usable (a stale socket yields
`ConnectionUnavailable`). -/
structure Connection where
  key : String
  addr : Addr
  expr : Rule
  usable : Bool

/-- Modelled from the spec: the Connection Registry (`pool::Pool`).
Keys are unique; iteration order is insertion order, represented
directly by the list order. -/
abbrev Pool := List Connection

/-- Modelled from the spec: the `connect` error taxonomy. -/
inductive ConnectError
  | DuplicateKey
  | Unreachable
deriving DecidableEq

/-- Modelled from the spec: the `disconnect` error taxonomy. -/
inductive DisconnectError
  | UnknownKey
deriving DecidableEq

/-- Modelled from the spec: the `eval`/`doc` error taxonomy. -/
inductive EvalError
  | NoMatch
  | ConnectionUnavailable
deriving DecidableEq

/-- Human-readable rendering of a connect error (the registry's
`Display` impl, not in the snapshot; text immaterial to the claims). -/
def ConnectError.render : ConnectError → String
  | .DuplicateKey => "duplicate connection key"
  | .Unreachable => "connection refused"

/-- Human-readable rendering of a disconnect error. -/
def DisconnectError.render : DisconnectError → String
  | .UnknownKey => "unknown connection key"

/-- Human-readable rendering of an eval/doc error. -/
def EvalError.render : EvalError → String
  | .NoMatch => "no matching connection for path"
  | .ConnectionUnavailable => "connection unavailable"

/-- One outbound message to a REPL backend: the target connection's
key and the transmitted payload. -/
structure Transmission where
  key : String
  payload : String
deriving DecidableEq

/-- Modelled from the spec: `hasConnections`. -/
def Pool.has_connections (p : Pool) : Bool := !p.isEmpty

/-- Modelled from the spec: `list()` — a non-mutating snapshot in
insertion order. -/
def Pool.iter (p : Pool) : List Connection := p

/-- The connection currently registered under `key`, if any. -/
def Pool.lookup (p : Pool) (key : String) : Option Connection :=
  p.find? (fun c => c.key == key)

/-- Modelled from the spec: `connect(key, address, matchRule)`.  Fails
with `DuplicateKey` if the key already has a live connection, with
`Unreachable` if establishing the outbound connection fails; on success
the new Connection is appended (insertion order).  Returns the result
together with the registry afterwards (unchanged on failure). -/
def Pool.connect (p : Pool) (key : String) (addr : Addr) (expr : Rule) :
    Except ConnectError Unit × Pool :=
  if p.any (fun c => c.key == key) then (.error .DuplicateKey, p)
  else if !addr.reachable then (.error .Unreachable, p)
  else (.ok (), p ++ [⟨key, addr, expr, true⟩])

/-- Modelled from the spec: `disconnect(key)`.  Fails with `UnknownKey`
if no such connection exists; on success the entry is removed. -/
def Pool.disconnect (p : Pool) (key : String) :
    Except DisconnectError Unit × Pool :=
  if p.any (fun c => c.key == key) then
    (.ok (), p.filter (fun c => c.key != key))
  else (.error .UnknownKey, p)

/-- Modelled from the spec: `eval(code, path)`.  The target is the
first connection in insertion order whose rule matches `path`; `NoMatch`
if none matches, `ConnectionUnavailable` if the matched socket is
stale; on success the code is transmitted to the matched backend.
Returns the result together with the transmissions performed. -/
def Pool.eval (p : Pool) (code path : String) :
    Except EvalError Unit × List Transmission :=
  match p.find? (fun c => c.expr.test path) with
  | none => (.error .NoMatch, [])
  | some c =>
    if c.usable then (.ok (), [⟨c.key, code⟩])
    else (.error .ConnectionUnavailable, [])

/-- Modelled from the spec: `doc(name, path)` — same routing and
failure contract as `eval`, sending a documentation-lookup request. -/
def Pool.doc (p : Pool) (name path : String) :
    Except EvalError Unit × List Transmission :=
  match p.find? (fun c => c.expr.test path) with
  | none => (.error .NoMatch, [])
  | some c =>
    if c.usable then (.ok (), [⟨c.key, name⟩])
    else (.error .ConnectionUnavailable, [])

/-- The inbound event union of `src/system.rs` (`editor::Event`). -/
inductive Event
  | Quit
  | List
  | ShowLog
  | Connect (key : String) (addr : Addr) (expr : Rule)
  | Disconnect (key : String)
  | Eval (code : String) (path : String)
  | Doc (name : String) (path : String)

/-- One write to the sink (the `Server`'s log/error surface). -/
inductive SinkWrite
  | logLine (tag : String) (text : String)
  | logLines (tag : String) (texts : List String)
  | errLine (text : String)
deriving DecidableEq

/-- The sink boundary.  `displayLogResult` models the environment:
the outcome of `display_or_create_log_window`. -/
structure Server where
  displayLogResult : Except String Unit

/-- `static DEFAULT_TAG: &str = "Conjure"`. -/
def DEFAULT_TAG : String := "Conjure"

/-- `System` from `src/system.rs`: the pool and the server handle. -/
structure System where
  pool : Pool
  server : Server

/-- The result of one dispatcher action: the system afterwards, the
sink writes performed, and the outbound transmissions performed. -/
structure StepOut where
  sys : System
  writes : List SinkWrite
  sends : List Transmission

/-- The display line `handle_list` formats for one connection:
`;; [key] addr for files matching 'expr'`. -/
def fmtConn (c : Connection) : String :=
  ";; [" ++ c.key ++ "] " ++ c.addr.display ++ " for files matching \x27"
    ++ c.expr.source ++ "\x27"

/-- `System::handle_list` from `src/system.rs`. -/
def System.handle_list (s : System) : StepOut :=
  if s.pool.has_connections then
    ⟨s, [.logLines DEFAULT_TAG (s.pool.iter.map fmtConn)], []⟩
  else
    ⟨s, [.logLine DEFAULT_TAG ";; No connections"], []⟩

/-- `System::handle_show_log` from `src/system.rs`. -/
def System.handle_show_log (s : System) : StepOut :=
  match s.server.displayLogResult with
  | .error msg => ⟨s, [.errLine ("Failed to show the log window: " ++ msg)], []⟩
  | .ok _ => ⟨s, [], []⟩

/-- `System::handle_connect` from `src/system.rs`. -/
def System.handle_connect (s : System) (key : String) (addr : Addr)
    (expr : Rule) : StepOut :=
  match s.pool.connect key addr expr with
  | (.error msg, p) =>
    ⟨⟨p, s.server⟩,
      [.errLine ("[" ++ key ++ "] Connection error: " ++ msg.render)], []⟩
  | (.ok _, p) =>
    ⟨⟨p, s.server⟩,
      [.logLine DEFAULT_TAG (";; [" ++ key ++ "] Loading conjure.repl...")], []⟩

/-- `System::handle_disconnect` from `src/system.rs`. -/
def System.handle_disconnect (s : System) (key : String) : StepOut :=
  match s.pool.disconnect key with
  | (.error msg, p) =>
    ⟨⟨p, s.server⟩,
      [.errLine ("[" ++ key ++ "] Disconnection error: " ++ msg.render)], []⟩
  | (.ok _, p) =>
    ⟨⟨p, s.server⟩,
      [.logLine DEFAULT_TAG (";; [" ++ key ++ "] Disconnected")], []⟩

/-- `System::handle_eval` from `src/system.rs`: failure writes an error
line; success writes nothing. -/
def System.handle_eval (s : System) (code path : String) : StepOut :=
  match s.pool.eval code path with
  | (.error msg, sends) =>
    ⟨s, [.errLine ("Eval error: " ++ msg.render)], sends⟩
  | (.ok _, sends) => ⟨s, [], sends⟩

/-- `System::handle_doc` from `src/system.rs`. -/
def System.handle_doc (s : System) (name path : String) : StepOut :=
  match s.pool.doc name path with
  | (.error msg, sends) =>
    ⟨s, [.errLine ("Doc error: " ++ msg.render)], sends⟩
  | (.ok _, sends) => ⟨s, [], sends⟩

/-- The loop state of the dispatcher (spec §4.2). -/
inductive LoopState
  | Running
  | Terminated
deriving DecidableEq

/-- One iteration of the event loop in `System::start`: a queue item is
either a parsed event (dispatched by the inner `match`, with `Quit`
breaking out of the loop) or a parse error (reported with
`err_writeln`). -/
def stepItem (s : System) : Except String Event → StepOut × LoopState
  | .ok .Quit => (⟨s, [], []⟩, .Terminated)
  | .ok .List => (s.handle_list, .Running)
  | .ok .ShowLog => (s.handle_show_log, .Running)
  | .ok (.Connect key addr expr) => (s.handle_connect key addr expr, .Running)
  | .ok (.Disconnect key) => (s.handle_disconnect key, .Running)
  | .ok (.Eval code path) => (s.handle_eval code path, .Running)
  | .ok (.Doc name path) => (s.handle_doc name path, .Running)
  | .error msg =>
    (⟨s, [.errLine ("Error parsing command: " ++ msg)], []⟩, .Running)

/-- The event loop of `System::start` over a finite inbound queue:
consumes items in order until a `Quit` event or exhaustion, returning
the final system together with all sink writes and transmissions. -/
def runLoop (s : System) :
    List (Except String Event) → System × List SinkWrite × List Transmission
  | [] => (s, [], [])
  | item :: rest =>
    match stepItem s item with
    | (out, .Terminated) => (out.sys, out.writes, out.sends)
    | (out, .Running) =>
      let r := runLoop out.sys rest
      (r.1, out.writes ++ r.2.1, out.sends ++ r.2.2)

/-- `System::start` from `src/system.rs`: starts the server (the `?`
on `Server::start` is the `serverStart` argument), then runs the event
loop from an empty pool; returns `Ok` once the loop breaks out. -/
def System.start (serverStart : Except String Server)
    (events : List (Except String Event)) :
    Except String (System × List SinkWrite × List Transmission) :=
  match serverStart with
  | .error e => .error e
  | .ok srv => .ok (runLoop ⟨[], srv⟩ events)

/-! ## Sample data used by witnesses -/

/-- A server whose log window can be displayed. -/
def srvOk : Server := ⟨.ok ()⟩

/-- The initial system: empty pool (`Pool::new()`). -/
def sys0 : System := ⟨[], srvOk⟩

/-- A rule matching exactly the path `foo.clj`. -/
def rClj : Rule := ⟨"clj", fun p => p == "foo.clj"⟩

/-- A rule matching exactly the path `foo.py`. -/
def rPy : Rule := ⟨"py", fun p => p == "foo.py"⟩

/-- A reachable sample address. -/
def aOk : Addr := ⟨"127.0.0.1", 7890, true⟩

/-- A sample connection under key `a`, matching `foo.clj`. -/
def cA : Connection := ⟨"a", aOk, rClj, true⟩

/-- A sample connection under key `b`, matching `foo.py`. -/
def cB : Connection := ⟨"b", aOk, rPy, true⟩

/-- A system holding the single connection `cA`. -/
def sysA : System := ⟨[cA], srvOk⟩

/-! ## Claims -/

/-- Claim C1: the dispatcher loop is a two-state machine starting in
`Running`: processing any queue item other than an `Ok Quit` event
(`List`, `ShowLog`, `Connect`, `Disconnect`, `Eval`, `Doc`, or a
malformed input) leaves it in `Running` and the loop continues with the
remaining items, and for every finite inbound sequence `start` returns
successfully once the server starts (the loop ends only by `Quit` or
exhaustion of the queue). -/
theorem C1_loop_two_state (s : System) (item : Except String Event)
    (rest : List (Except String Event)) (h : item ≠ .ok .Quit)
    (srv : Server) (evs : List (Except String Event)) :
    (stepItem s item).2 = .Running
    ∧ runLoop s (item :: rest) =
        ((runLoop (stepItem s item).1.sys rest).1,
         (stepItem s item).1.writes ++ (runLoop (stepItem s item).1.sys rest).2.1,
         (stepItem s item).1.sends ++ (runLoop (stepItem s item).1.sys rest).2.2)
    ∧ ∃ res, System.start (.ok srv) evs = .ok res := by
  refine ⟨?_, ?_, ⟨runLoop ⟨[], srv⟩ evs, rfl⟩⟩
  · rcases item with msg | ev
    · rfl
    · cases ev
      case Quit => exact absurd rfl h
      all_goals rfl
  · rcases item with msg | ev
    · rfl
    · cases ev
      case Quit => exact absurd rfl h
      all_goals rfl

/- Witness for C1 at the concrete item `Ok List` on the initial system. -/
theorem C1_loop_two_state_witness :
    (stepItem sys0 (.ok .List)).2 = .Running
    ∧ ∃ res, System.start (.ok srvOk) [] = .ok res :=
  ⟨(C1_loop_two_state sys0 (.ok .List) [] (by simp) srvOk []).1,
   (C1_loop_two_state sys0 (.ok .List) [] (by simp) srvOk []).2.2⟩

/-- Claim C3: a malformed (unparseable) queue item makes the dispatcher
write exactly one parse-error line to the sink, perform no Registry
operation (the system, hence the pool, is unchanged, and nothing is
transmitted), and the loop state remains `Running`; the loop continues
with the remaining items. -/
theorem C3_parse_error_line (s : System) (msg : String)
    (rest : List (Except String Event)) :
    stepItem s (.error msg)
      = (⟨s, [.errLine ("Error parsing command: " ++ msg)], []⟩, .Running)
    ∧ runLoop s (.error msg :: rest)
      = ((runLoop s rest).1,
         .errLine ("Error parsing command: " ++ msg) :: (runLoop s rest).2.1,
         (runLoop s rest).2.2) :=
  ⟨rfl, rfl⟩

/-- Claim C4: on a `List` event, with no connections the dispatcher
writes exactly the fixed no-connections line; otherwise it writes one
line per connection — in insertion order, each line formatted by
`fmtConn` from the connection's key, address and match rule. -/
theorem C4_list_lines (s : System) :
    (s.pool = [] →
      s.handle_list = ⟨s, [.logLine DEFAULT_TAG ";; No connections"], []⟩)
    ∧ (s.pool ≠ [] →
      s.handle_list = ⟨s, [.logLines DEFAULT_TAG (s.pool.iter.map fmtConn)], []⟩
      ∧ (s.pool.iter.map fmtConn).length = s.pool.length) := by
  constructor
  · intro h
    simp [System.handle_list, Pool.has_connections, h]
  · intro h
    have hc : s.pool.has_connections = true := by
      simp [Pool.has_connections, List.isEmpty_iff, h]
    refine ⟨?_, by simp [Pool.iter]⟩
    simp [System.handle_list, hc]

/- Witness for C4: both the empty pool and a one-connection pool. -/
theorem C4_list_lines_witness :
    System.handle_list sys0
      = ⟨sys0, [.logLine DEFAULT_TAG ";; No connections"], []⟩
    ∧ System.handle_list sysA
      = ⟨sysA, [.logLines DEFAULT_TAG (Pool.iter [cA] |>.map fmtConn)], []⟩ :=
  ⟨(C4_list_lines sys0).1 rfl, ((C4_list_lines sysA).2 (by simp [sysA])).1⟩

/-- Claim C2: for every event whose Registry operation fails
(`Connect`, `Disconnect`, `Eval`, `Doc`), the failure is caught at the
dispatcher boundary and converted into exactly one error line written
to the sink, and the loop stays `Running` (it never terminates because
of an operation failure). -/
theorem C2_failures_isolated (s : System) (key₁ key₂ : String)
    (addr : Addr) (expr : Rule) (code path name path₂ : String) :
    (∀ (e : ConnectError) (q : Pool),
      s.pool.connect key₁ addr expr = (.error e, q) →
      (∃ t, (s.handle_connect key₁ addr expr).writes = [.errLine t])
      ∧ (stepItem s (.ok (.Connect key₁ addr expr))).2 = .Running)
    ∧ (∀ (e : DisconnectError) (q : Pool),
      s.pool.disconnect key₂ = (.error e, q) →
      (∃ t, (s.handle_disconnect key₂).writes = [.errLine t])
      ∧ (stepItem s (.ok (.Disconnect key₂))).2 = .Running)
    ∧ (∀ (e : EvalError) (ts : List Transmission),
      s.pool.eval code path = (.error e, ts) →
      (∃ t, (s.handle_eval code path).writes = [.errLine t])
      ∧ (stepItem s (.ok (.Eval code path))).2 = .Running)
    ∧ (∀ (e : EvalError) (ts : List Transmission),
      s.pool.doc name path₂ = (.error e, ts) →
      (∃ t, (s.handle_doc name path₂).writes = [.errLine t])
      ∧ (stepItem s (.ok (.Doc name path₂))).2 = .Running) := by
  refine
    ⟨fun e q h => ⟨⟨"[" ++ key₁ ++ "] Connection error: " ++ e.render, ?_⟩, rfl⟩,
     fun e q h => ⟨⟨"[" ++ key₂ ++ "] Disconnection error: " ++ e.render, ?_⟩, rfl⟩,
     fun e ts h => ⟨⟨"Eval error: " ++ e.render, ?_⟩, rfl⟩,
     fun e ts h => ⟨⟨"Doc error: " ++ e.render, ?_⟩, rfl⟩⟩
  · simp [System.handle_connect, h]
  · simp [System.handle_disconnect, h]
  · simp [System.handle_eval, h]
  · simp [System.handle_doc, h]

/- Witness for C2: on the one-connection pool, a duplicate connect and
an eval on an unmatched path each fail and each produces a single
error line. -/
theorem C2_failures_isolated_witness :
    (∃ t, (sysA.handle_connect "a" aOk rClj).writes = [.errLine t])
    ∧ (∃ t, (sysA.handle_eval "(+ 1 2)" "foo.py").writes = [.errLine t]) :=
  ⟨((C2_failures_isolated sysA "a" "b" aOk rClj "(+ 1 2)" "foo.py" "n"
      "foo.py").1 .DuplicateKey [cA] rfl).1,
   ((C2_failures_isolated sysA "a" "b" aOk rClj "(+ 1 2)" "foo.py" "n"
      "foo.py").2.2.1 .NoMatch [] rfl).1⟩

/-- Claim C5: error lines for failed `Connect` and `Disconnect` events
are tagged with the event's key (the line starts with `[key]`), while
error lines for failed `Eval` and `Doc` events are built from the
operation error alone and carry no key context. -/
theorem C5_error_line_key_tagging (s : System) (key₁ key₂ : String)
    (addr : Addr) (expr : Rule) (code path name path₂ : String) :
    (∀ (e : ConnectError) (q : Pool),
      s.pool.connect key₁ addr expr = (.error e, q) →
      (s.handle_connect key₁ addr expr).writes
        = [.errLine ("[" ++ key₁ ++ "] Connection error: " ++ e.render)])
    ∧ (∀ (e : DisconnectError) (q : Pool),
      s.pool.disconnect key₂ = (.error e, q) →
      (s.handle_disconnect key₂).writes
        = [.errLine ("[" ++ key₂ ++ "] Disconnection error: " ++ e.render)])
    ∧ (∀ (e : EvalError) (ts : List Transmission),
      s.pool.eval code path = (.error e, ts) →
      (s.handle_eval code path).writes
        = [.errLine ("Eval error: " ++ e.render)])
    ∧ (∀ (e : EvalError) (ts : List Transmission),
      s.pool.doc name path₂ = (.error e, ts) →
      (s.handle_doc name path₂).writes
        = [.errLine ("Doc error: " ++ e.render)]) := by
  refine ⟨fun e q h => ?_, fun e q h => ?_, fun e ts h => ?_, fun e ts h => ?_⟩
  · simp [System.handle_connect, h]
  · simp [System.handle_disconnect, h]
  · simp [System.handle_eval, h]
  · simp [System.handle_doc, h]

/- Witness for C5: a key-tagged connect error line and a keyless eval
error line at concrete inputs. -/
theorem C5_error_line_key_tagging_witness :
    (sysA.handle_connect "a" aOk rClj).writes
      = [.errLine ("[" ++ "a" ++ "] Connection error: "
          ++ ConnectError.render .DuplicateKey)]
    ∧ (sysA.handle_eval "(+ 1 2)" "foo.py").writes
      = [.errLine ("Eval error: " ++ EvalError.render .NoMatch)] :=
  ⟨(C5_error_line_key_tagging sysA "a" "b" aOk rClj "(+ 1 2)" "foo.py" "n"
      "foo.py").1 .DuplicateKey [cA] rfl,
   (C5_error_line_key_tagging sysA "a" "b" aOk rClj "(+ 1 2)" "foo.py" "n"
      "foo.py").2.2.1 .NoMatch [] rfl⟩

/-- Claim C10: for every `Eval` or `Doc` event whose Registry operation
succeeds the dispatcher writes nothing to the sink, whereas successful
`Connect` and `Disconnect` events produce one informational line. -/
theorem C10_silent_eval_success (s : System)
    (key₁ key₂ code path name path₂ : String) (addr : Addr) (expr : Rule)
    (p₁ p₂ : Pool) (ts₁ ts₂ : List Transmission)
    (h₁ : s.pool.eval code path = (.ok (), ts₁))
    (h₂ : s.pool.doc name path₂ = (.ok (), ts₂))
    (h₃ : s.pool.connect key₁ addr expr = (.ok (), p₁))
    (h₄ : s.pool.disconnect key₂ = (.ok (), p₂)) :
    (s.handle_eval code path).writes = []
    ∧ (s.handle_doc name path₂).writes = []
    ∧ (s.handle_connect key₁ addr expr).writes
        = [.logLine DEFAULT_TAG (";; [" ++ key₁ ++ "] Loading conjure.repl...")]
    ∧ (s.handle_disconnect key₂).writes
        = [.logLine DEFAULT_TAG (";; [" ++ key₂ ++ "] Disconnected")] := by
  refine ⟨?_, ?_, ?_, ?_⟩
  · simp [System.handle_eval, h₁]
  · simp [System.handle_doc, h₂]
  · simp [System.handle_connect, h₃]
  · simp [System.handle_disconnect, h₄]

/- Witness for C10: a successful eval writes nothing while a successful
connect writes its informational line. -/
theorem C10_silent_eval_success_witness :
    (sysA.handle_eval "(+ 1 2)" "foo.clj").writes = []
    ∧ (sysA.handle_connect "b" aOk rPy).writes
        = [.logLine DEFAULT_TAG (";; [" ++ "b" ++ "] Loading conjure.repl...")] :=
  ⟨(C10_silent_eval_success sysA "b" "a" "(+ 1 2)" "foo.clj" "doc" "foo.clj"
      aOk rPy [cA, cB] [] [⟨"a", "(+ 1 2)"⟩] [⟨"a", "doc"⟩]
      rfl rfl rfl rfl).1,
   (C10_silent_eval_success sysA "b" "a" "(+ 1 2)" "foo.clj" "doc" "foo.clj"
      aOk rPy [cA, cB] [] [⟨"a", "(+ 1 2)"⟩] [⟨"a", "doc"⟩]
      rfl rfl rfl rfl).2.2.1⟩

/-- Claim C6: after a successful `connect(k, …)`, a second `connect(k, …)`
without an intervening `disconnect(k)` fails with `DuplicateKey` and
leaves the registry unchanged, the originally registered connection for
`k` intact. -/
theorem C6_duplicate_key_connect (p p₁ : Pool) (k : String)
    (a a₂ : Addr) (r r₂ : Rule)
    (h : p.connect k a r = (.ok (), p₁)) :
    p₁.connect k a₂ r₂ = (.error .DuplicateKey, p₁)
    ∧ p₁.lookup k = some ⟨k, a, r, true⟩ := by
  unfold Pool.connect at h
  by_cases h1 : p.any (fun c => c.key == k) = true
  · rw [if_pos h1] at h
    exact absurd (congrArg Prod.fst h) (by simp)
  · rw [if_neg h1] at h
    by_cases h2 : (!a.reachable) = true
    · rw [if_pos h2] at h
      exact absurd (congrArg Prod.fst h) (by simp)
    · rw [if_neg h2] at h
      have hp : p ++ [⟨k, a, r, true⟩] = p₁ := congrArg Prod.snd h
      subst hp
      have h1f : p.any (fun c => c.key == k) = false :=
        Bool.eq_false_iff.mpr h1
      have hnone : p.find? (fun c => c.key == k) = none := by
        rw [List.find?_eq_none]
        intro x hx hfx
        exact h1 (List.any_eq_true.mpr ⟨x, hx, hfx⟩)
      constructor
      · simp [Pool.connect, List.any_append, h1f]
      · simp [Pool.lookup, List.find?_append, hnone]

/- Witness for C6 on the empty pool and key `a`. -/
theorem C6_duplicate_key_connect_witness :
    Pool.connect [cA] "a" aOk rClj = (.error .DuplicateKey, [cA])
    ∧ Pool.lookup [cA] "a" = some ⟨"a", aOk, rClj, true⟩ :=
  C6_duplicate_key_connect [] [cA] "a" aOk aOk rClj rClj rfl

/-- Claim C7: `disconnect(k)` on a key with no live connection fails
with `UnknownKey` and leaves the registry unchanged; on a connected key
it succeeds, removes the entry, and a subsequent `connect(k, …)` to a
reachable address succeeds. -/
theorem C7_disconnect_contract (p : Pool) (k : String) :
    (p.lookup k = none → p.disconnect k = (.error .UnknownKey, p))
    ∧ (∀ c, p.lookup k = some c →
        (p.disconnect k).1 = .ok ()
        ∧ (p.disconnect k).2.lookup k = none
        ∧ ∀ a r, a.reachable = true →
            ((p.disconnect k).2.connect k a r).1 = .ok ()) := by
  constructor
  · intro h
    simp only [Pool.lookup, List.find?_eq_none] at h
    have hf : p.any (fun c => c.key == k) = false := by
      rw [List.any_eq_false]
      exact fun x hx => h x hx
    simp [Pool.disconnect, hf]
  · intro c hc
    simp only [Pool.lookup] at hc
    have hmem := List.mem_of_find?_eq_some hc
    have hck := List.find?_some hc
    have htrue : p.any (fun c => c.key == k) = true :=
      List.any_eq_true.mpr ⟨c, hmem, hck⟩
    have hfnone : (p.filter fun c => c.key != k).find?
        (fun c => c.key == k) = none := by
      rw [List.find?_eq_none]
      intro x hx
      have hxk := (List.mem_filter.mp hx).2
      simp only [bne_iff_ne, ne_eq] at hxk
      simp [hxk]
    have hfany : (p.filter fun c => c.key != k).any
        (fun c => c.key == k) = false := by
      rw [List.any_eq_false]
      intro x hx
      have hxk := (List.mem_filter.mp hx).2
      simp only [bne_iff_ne, ne_eq] at hxk
      simp [hxk]
    refine ⟨?_, ?_, ?_⟩
    · simp [Pool.disconnect, htrue]
    · simp [Pool.disconnect, htrue, Pool.lookup, hfnone]
    · intro a r ha
      simp [Pool.disconnect, htrue, Pool.connect, hfany, ha]

/- Witness for C7: unknown key on the empty pool; connected key on the
one-connection pool. -/
theorem C7_disconnect_contract_witness :
    Pool.disconnect [] "b" = (.error .UnknownKey, [])
    ∧ (Pool.disconnect [cA] "a").1 = .ok () :=
  ⟨(C7_disconnect_contract [] "b").1 rfl,
   ((C7_disconnect_contract [cA] "a").2 cA rfl).1⟩

/-- Claim C8: when at least one registered connection's rule matches
the path, `eval` routes the request to the first matching connection in
insertion order (earlier non-matching entries are skipped; later
entries, matching or not, are ignored), transmitting the code to that
connection's backend. -/
theorem C8_first_match_wins (p₁ p₂ : Pool) (c : Connection)
    (code path : String)
    (h₁ : ∀ c₂ ∈ p₁, c₂.expr.test path = false)
    (h₂ : c.expr.test path = true) (h₃ : c.usable = true) :
    Pool.eval (p₁ ++ c :: p₂) code path = (.ok (), [⟨c.key, code⟩]) := by
  have hnone : p₁.find? (fun x => x.expr.test path) = none := by
    rw [List.find?_eq_none]
    intro x hx
    simp [h₁ x hx]
  have hfind : (p₁ ++ c :: p₂).find? (fun x => x.expr.test path) = some c := by
    rw [List.find?_append, hnone, Option.none_or]
    exact List.find?_cons_of_pos _ h₂
  simp [Pool.eval, hfind, h₃]

/- Witness for C8: with `cB` (matching only `foo.py`) registered before
`cA` (matching `foo.clj`), eval on `foo.clj` routes to `cA`. -/
theorem C8_first_match_wins_witness :
    Pool.eval ([cB] ++ cA :: []) "(+ 1 2)" "foo.clj"
      = (.ok (), [⟨"a", "(+ 1 2)"⟩]) :=
  C8_first_match_wins [cB] [] cA "(+ 1 2)" "foo.clj" (by decide) (by decide) rfl

/-- Claim C9: when no registered connection's rule matches the path,
`eval` fails with `NoMatch` and transmits nothing to any backend. -/
theorem C9_no_match_sends_nothing (p : Pool) (code path : String)
    (h : ∀ c ∈ p, c.expr.test path = false) :
    Pool.eval p code path = (.error .NoMatch, []) := by
  have hnone : p.find? (fun x => x.expr.test path) = none := by
    rw [List.find?_eq_none]
    intro x hx
    simp [h x hx]
  simp [Pool.eval, hnone]

/- Witness for C9: eval on `foo.py` against the pool holding only `cA`. -/
theorem C9_no_match_sends_nothing_witness :
    Pool.eval [cA] "(+ 1 2)" "foo.py" = (.error .NoMatch, []) :=
  C9_no_match_sends_nothing [cA] "(+ 1 2)" "foo.py" (by decide)
